import Mathlib

/-!
Verification of the real-time room-coordination and host-authorization core of
the Veilo repository (`backend/socket/socketHandler.js`), as a shallow
embedding in Lean 4.

Modelling conventions:
* Timestamps are natural numbers (`new Date()` / ISO strings in the source
  become `now : Nat`); `expiresAt: { $gt: new Date() }` becomes `now < expiresAt`.
* The mongoose documents `HostSession` and `SanctuarySession` live in a
  `Store`; `Model.findOne(query)` becomes `List.find?` with the query as a
  boolean predicate, in stored order.
* A socket's room membership (socket.io `socket.join` / `socket.leave` /
  `io.to` / `socket.to`) is a list of room-name strings on the connection;
  `socket.to(room)` is a room broadcast excluding the sender, `io.to(room)`
  a room broadcast excluding nobody, `socket.emit` a direct emission.
* Durable writes (`save()`, `updateAccess()`) may fail; each handler that
  writes takes a `saveOk : Bool` giving the outcome of its durable writes
  (a failed write throws in the source and leaves the store unchanged).
* `nanoid(32)` is modelled by a `freshToken : String` parameter.
-/

/-- A durable sanctuary submission (pushed into `sanctuarySession.submissions`
in the `sanctuary_message` handler). -/
structure Submission where
  id : String
  participantId : String
  participantAlias : String
  content : String
  msgType : String
  timestamp : Nat
  deriving DecidableEq, Repr

/-- Durable `SanctuarySession` document (fields the socket handler reads:
id, hostId, topic, description, emoji, expiresAt, isActive, createdAt,
submissions). -/
structure SanctuarySession where
  id : String
  hostId : String
  topic : String
  description : String
  emoji : String
  expiresAt : Nat
  isActive : Bool
  createdAt : Nat
  submissions : List Submission
  deriving DecidableEq, Repr

/-- Durable `HostSession` document (fields the socket handler reads and
writes: sanctuaryId, hostToken, hostId, expiresAt, isActive, lastAccessedAt).
Modelled from the spec: the schema file is not in scope; a freshly minted
session starts active with its last-access stamp at mint time
(state machine `absent → active (on mint)`). -/
structure HostSession where
  sanctuaryId : String
  hostToken : String
  hostId : String
  expiresAt : Nat
  isActive : Bool
  lastAccessedAt : Nat
  deriving DecidableEq, Repr

/-- The durable store holding both collections. -/
structure Store where
  hostSessions : List HostSession
  sanctuaries : List SanctuarySession
  deriving DecidableEq, Repr

/-- A live socket connection: identity attached by the auth middleware plus
the `current*` room-tracking fields and the socket.io room-membership set. -/
structure Connection where
  sid : String
  userId : String
  userAlias : Option String
  userAvatarIndex : Option Nat
  isAnonymous : Bool
  rooms : List String
  currentChatSession : Option String
  currentSanctuary : Option String
  currentSanctuaryHost : Option String
  currentAudioRoom : Option String
  connHostToken : Option String
  deriving DecidableEq, Repr

/-- Where an emitted event goes: a direct `socket.emit` to one socket id, or
a room broadcast, optionally excluding one socket id (`socket.to(room)`
excludes the sender; `io.to(room)` excludes nobody). -/
inductive EmitTarget where
  | toConn (sid : String)
  | toRoom (room : String) (excludeSid : Option String)
  deriving DecidableEq, Repr

/-- The events the modelled handlers emit, with their payload fields. -/
inductive Event where
  | userJoined (userId : String) (userAlias : Option String) (userType : String) (ts : Nat)
  | newMessage (msgId : String) (senderId : String) (senderAlias : String)
      (content : String) (msgType : String) (ts : Nat) (sessionId : String)
  | participantJoined (pid : String) (alias' : String) (ts : Nat) (isAnonymous : Bool)
  | sanctuaryHostJoined (sanctuaryId : String) (submissionsCount : Nat)
      (lastActivity : Nat) (hostToken : String) (topic : String)
      (description : String) (emoji : String) (expiresAt : Nat)
  | sanctuaryHostAuthFailed (sanctuaryId : String) (error : String) (details : String)
  | sanctuaryError (error : String)
  | sanctuaryNewMessage (m : Submission)
  | sanctuaryNewSubmission (m : Submission) (totalSubmissions : Nat)
  | audioParticipantJoined (pid : String) (alias' : String) (isHost : Bool)
      (isModerator : Bool) (ts : Nat)
  | kickedFromRoom (sessionId : String) (kickedBy : String) (ts : Nat)
  | participantKicked (participantId : String) (kickedBy : String) (ts : Nat)
  | userLeft (userId : String) (userAlias : Option String) (ts : Nat)
  | participantLeft (participantId : String) (participantAlias : Option String) (ts : Nat)
  | audioParticipantLeft (participantId : String) (participantAlias : Option String) (ts : Nat)
  | sanctuaryMessageStatus (messageId : String) (status : String) (ts : Nat)
  deriving DecidableEq, Repr

/-- One emission: a target and an event. -/
structure Emission where
  target : EmitTarget
  event : Event
  deriving DecidableEq, Repr

/-- JS truthiness for an optional string: `undefined` and the empty string
are falsy. -/
def jsPresent : Option String → Option String
  | none => none
  | some t => if t = "" then none else some t

/-- JS `a || d` on an optional string. -/
def strOr (a : Option String) (d : String) : String :=
  match jsPresent a with
  | some t => t
  | none => d

/-- socket.io `socket.join`: adds the room to the socket's membership set
(idempotent); it does NOT remove the socket from any other room. -/
def joinRoom (rooms : List String) (r : String) : List String :=
  if r ∈ rooms then rooms else rooms ++ [r]

/-- socket.io `socket.leave`. -/
def leaveRoom (rooms : List String) (r : String) : List String :=
  rooms.filter (fun x => x ≠ r)

/-- Socket ids a given emission target delivers to, given the live
connection list: direct emission reaches the socket if connected; a room
broadcast reaches every member of the room, minus the excluded socket. -/
def deliveredTo (conns : List Connection) : EmitTarget → List String
  | .toConn sid => (conns.filter (fun c => c.sid = sid)).map (·.sid)
  | .toRoom r none => (conns.filter (fun c => r ∈ c.rooms)).map (·.sid)
  | .toRoom r (some ex) =>
      ((conns.filter (fun c => r ∈ c.rooms)).map (·.sid)).filter (fun s => s ≠ ex)

/-- The `HostSession.findOne({hostToken, sanctuaryId, isActive: true,
expiresAt: {$gt: new Date()}})` query predicate. -/
def hostSessionQuery (tok sanctuaryId : String) (now : Nat) (h : HostSession) : Bool :=
  h.hostToken == tok && h.sanctuaryId == sanctuaryId && h.isActive
    && decide (now < h.expiresAt)

/-- The `SanctuarySession.findOne({id, hostId, isActive: true, expiresAt:
{$gt: new Date()}})` query predicate (owner-scoped lookup). -/
def sanctuaryOwnerQuery (sanctuaryId hostId : String) (now : Nat)
    (s : SanctuarySession) : Bool :=
  s.id == sanctuaryId && s.hostId == hostId && s.isActive
    && decide (now < s.expiresAt)

/-- The `SanctuarySession.findOne({id, isActive: true, expiresAt:
{$gt: new Date()}})` query predicate (unscoped lookup). -/
def sanctuaryQuery (sanctuaryId : String) (now : Nat) (s : SanctuarySession) : Bool :=
  s.id == sanctuaryId && s.isActive && decide (now < s.expiresAt)

/-- Model of `hostSession.updateAccess()`: bump the stored session's
last-access timestamp. Modelled from the spec: the method body lives in the
schema file (not in scope); the spec says a successful re-verification bumps
the last-access timestamp. -/
def updateHostAccess (l : List HostSession) (sanctuaryId tok : String) (now : Nat) :
    List HostSession :=
  l.map (fun h =>
    if h.sanctuaryId == sanctuaryId && h.hostToken == tok then
      { h with lastAccessedAt := now }
    else h)

/-- The `sanctuary_host_joined` payload built in the success branch of the
`join_sanctuary_host` handler. -/
def hostJoinedEvent (sanctuaryId : String) (hs : HostSession)
    (s : SanctuarySession) : Event :=
  .sanctuaryHostJoined sanctuaryId s.submissions.length
    (match s.submissions.getLast? with
     | some m => m.timestamp
     | none => s.createdAt)
    hs.hostToken s.topic s.description s.emoji s.expiresAt

/-- The `sanctuary_host_auth_failed` emission (catch branch of the
`join_sanctuary_host` handler): fixed error text, `details` carrying the
thrown message. -/
def hostAuthFailedEmission (c : Connection) (sanctuaryId details : String) : Emission :=
  ⟨.toConn c.sid, .sanctuaryHostAuthFailed sanctuaryId
      "Not authorized as host for this sanctuary" details⟩

/-- Shared success tail of `join_sanctuary_host`: join the host room, record
the current host room and token on the socket, emit `sanctuary_host_joined`. -/
def hostJoinSuccess (st : Store) (c : Connection) (sanctuaryId : String)
    (hs : HostSession) (s : SanctuarySession) :
    Store × Connection × List Emission :=
  (st,
   { c with rooms := joinRoom c.rooms ("sanctuary_host_" ++ sanctuaryId),
            currentSanctuaryHost := some sanctuaryId,
            connHostToken := some hs.hostToken },
   [⟨.toConn c.sid, hostJoinedEvent sanctuaryId hs s⟩])

/-- The `join_sanctuary_host` handler. In source order: (1) if a token is
presented, look up an active non-expired `HostSession` by `(token,
sanctuaryId)`; (2) if none found and the caller is authenticated, look up the
sanctuary by `(id, hostId = caller, active, non-expired)` and, if found, mint
and save a new `HostSession` reusing the presented token or a fresh one;
(3) with a host session in hand, `updateAccess`, load the sanctuary if not
already loaded, join `sanctuary_host_<id>` and emit `sanctuary_host_joined`;
any failure is caught and emitted as `sanctuary_host_auth_failed`. -/
def joinSanctuaryHost (st : Store) (c : Connection) (now : Nat)
    (freshToken : String) (saveOk : Bool) (sanctuaryId : String)
    (hostToken : Option String) : Store × Connection × List Emission :=
  let found1 : Option HostSession :=
    match jsPresent hostToken with
    | some t => st.hostSessions.find? (hostSessionQuery t sanctuaryId now)
    | none => none
  match found1 with
  | some hs =>
    -- token branch: updateAccess, then load the sanctuary (unscoped query)
    if saveOk then
      let st1 : Store :=
        { st with hostSessions := updateHostAccess st.hostSessions sanctuaryId hs.hostToken now }
      match st1.sanctuaries.find? (sanctuaryQuery sanctuaryId now) with
      | some s => hostJoinSuccess st1 c sanctuaryId hs s
      | none =>
          (st1, c, [hostAuthFailedEmission c sanctuaryId
            "Sanctuary session not found or expired"])
    else
      (st, c, [hostAuthFailedEmission c sanctuaryId "persistence error"])
  | none =>
    if !c.isAnonymous then
      match st.sanctuaries.find? (sanctuaryOwnerQuery sanctuaryId c.userId now) with
      | some s =>
        -- owner mint branch: hostToken || nanoid(32), expiry copied from sanctuary
        let hs : HostSession :=
          { sanctuaryId := sanctuaryId,
            hostToken := strOr hostToken freshToken,
            hostId := c.userId,
            expiresAt := s.expiresAt,
            isActive := true,
            lastAccessedAt := now }
        if saveOk then
          let st1 : Store := { st with hostSessions := st.hostSessions ++ [hs] }
          let st2 : Store :=
            { st1 with hostSessions := updateHostAccess st1.hostSessions sanctuaryId hs.hostToken now }
          -- sanctuarySession already loaded by the owner-scoped query
          hostJoinSuccess st2 c sanctuaryId hs s
        else
          (st, c, [hostAuthFailedEmission c sanctuaryId "persistence error"])
      | none =>
          (st, c, [hostAuthFailedEmission c sanctuaryId "Host authorization failed"])
    else
      (st, c, [hostAuthFailedEmission c sanctuaryId "Host authorization failed"])

/-- The `sanctuary_message` handler. Looks up the sanctuary (active,
non-expired); if absent, emits `sanctuary_error` to the sender and returns.
Otherwise builds the submission, pushes it and saves; only after a successful
save does it broadcast `sanctuary_new_message` to the public sanctuary room
(`io.to`, nobody excluded) and `sanctuary_new_submission` with the running
count to the host room. A failed save is caught and emitted as
`sanctuary_error` to the sender, with no broadcast. `msgId` stands for the
generated collision-resistant id. -/
def sanctuaryMessage (st : Store) (c : Connection) (now : Nat) (msgId : String)
    (saveOk : Bool) (sanctuaryId content msgType : String)
    (participantAlias : Option String) : Store × List Emission :=
  match st.sanctuaries.find? (sanctuaryQuery sanctuaryId now) with
  | none =>
      (st, [⟨.toConn c.sid, .sanctuaryError "Sanctuary session not found or expired"⟩])
  | some s =>
    let m : Submission :=
      { id := msgId,
        participantId := c.userId,
        participantAlias := strOr participantAlias (strOr c.userAlias "Anonymous"),
        content := content,
        msgType := msgType,
        timestamp := now }
    if saveOk then
      let s' : SanctuarySession := { s with submissions := s.submissions ++ [m] }
      let st1 : Store :=
        { st with sanctuaries := st.sanctuaries.map (fun x => if x.id == s.id then s' else x) }
      (st1,
       [⟨.toRoom ("sanctuary_" ++ sanctuaryId) none, .sanctuaryNewMessage m⟩,
        ⟨.toRoom ("sanctuary_host_" ++ sanctuaryId) none,
          .sanctuaryNewSubmission m s'.submissions.length⟩])
    else
      (st, [⟨.toConn c.sid, .sanctuaryError "Failed to send message"⟩])

/-- The `join_chat` handler: join room `chat_<sessionId>`, record it as the
current chat session, notify the others (`socket.to`, sender excluded). -/
def joinChat (c : Connection) (now : Nat) (sessionId userType : String) :
    Connection × List Emission :=
  ({ c with rooms := joinRoom c.rooms ("chat_" ++ sessionId),
            currentChatSession := some sessionId },
   [⟨.toRoom ("chat_" ++ sessionId) (some c.sid),
      .userJoined c.userId c.userAlias userType now⟩])

/-- The `send_message` handler: build the message and broadcast `new_message`
to the whole chat room (`io.to`, nobody excluded). `msgId` stands for the
generated id. -/
def sendMessage (c : Connection) (now : Nat) (msgId sessionId content msgType : String) :
    List Emission :=
  [⟨.toRoom ("chat_" ++ sessionId) none,
     .newMessage msgId c.userId (strOr c.userAlias "Anonymous") content msgType now sessionId⟩]

/-- The `join_sanctuary` handler: join room `sanctuary_<id>`, record it as the
current sanctuary, notify the others (sender excluded). -/
def joinSanctuary (c : Connection) (now : Nat) (sanctuaryId : String)
    (participantAlias : Option String) (participantAnonymous : Bool) :
    Connection × List Emission :=
  ({ c with rooms := joinRoom c.rooms ("sanctuary_" ++ sanctuaryId),
            currentSanctuary := some sanctuaryId },
   [⟨.toRoom ("sanctuary_" ++ sanctuaryId) (some c.sid),
      .participantJoined c.userId
        (strOr participantAlias (strOr c.userAlias "Anonymous")) now
        (c.isAnonymous || participantAnonymous)⟩])

/-- The `join_audio_room` handler: join room `audio_room_<sessionId>`, record
it as the current audio room, notify the others (sender excluded). -/
def joinAudioRoom (c : Connection) (now : Nat) (sessionId : String)
    (participantAlias : Option String) (isHost isModerator : Bool) :
    Connection × List Emission :=
  ({ c with rooms := joinRoom c.rooms ("audio_room_" ++ sessionId),
            currentAudioRoom := some sessionId },
   [⟨.toRoom ("audio_room_" ++ sessionId) (some c.sid),
      .audioParticipantJoined c.userId
        (strOr participantAlias (strOr c.userAlias "Anonymous"))
        isHost isModerator now⟩])

/-- The `kick_participant` handler. Resolves the target by a linear scan of
ALL live connections (`io.sockets.sockets.values()`) for a matching `userId`;
if found, emits a directed `kicked_from_room` to the target, forces the
target to leave the audio room, and broadcasts `participant_kicked` to the
room excluding the actor; if no live connection matches, nothing happens. -/
def kickParticipant (conns : List Connection) (actor : Connection) (now : Nat)
    (sessionId participantId : String) : List Connection × List Emission :=
  match conns.find? (fun s => s.userId == participantId) with
  | some target =>
      (conns.map (fun s =>
         if s.sid == target.sid then
           { s with rooms := leaveRoom s.rooms ("audio_room_" ++ sessionId) }
         else s),
       [⟨.toConn target.sid, .kickedFromRoom sessionId actor.userId now⟩,
        ⟨.toRoom ("audio_room_" ++ sessionId) (some actor.sid),
          .participantKicked participantId actor.userId now⟩])
  | none => (conns, [])

/-- The `sanctuary_message_read` handler: destructures `hostToken` from the
payload but never uses it; unconditionally broadcasts
`sanctuary_message_status` (status `read`) to the sanctuary room, sender
excluded. -/
def sanctuaryMessageRead (c : Connection) (now : Nat)
    (sanctuaryId messageId : String) (hostToken : Option String) : List Emission :=
  [⟨.toRoom ("sanctuary_" ++ sanctuaryId) (some c.sid),
     .sanctuaryMessageStatus messageId "read" now⟩]

/-- The emissions of the `disconnect` handler, in source order: `user_left`
to the current chat room (if any), `participant_left` to the current
sanctuary (if any), nothing for the current sanctuary host room (the source
only logs), `audio_participant_left` to the current audio room (if any);
each broadcast excludes the departing socket. -/
def disconnectEmissions (c : Connection) (now : Nat) : List Emission :=
  (match c.currentChatSession with
   | some sid => [⟨.toRoom ("chat_" ++ sid) (some c.sid),
       .userLeft c.userId c.userAlias now⟩]
   | none => []) ++
  (match c.currentSanctuary with
   | some sid => [⟨.toRoom ("sanctuary_" ++ sid) (some c.sid),
       .participantLeft c.userId c.userAlias now⟩]
   | none => []) ++
  (match c.currentAudioRoom with
   | some sid => [⟨.toRoom ("audio_room_" ++ sid) (some c.sid),
       .audioParticipantLeft c.userId c.userAlias now⟩]
   | none => [])

/-- Connection teardown: the handler's emissions, plus socket.io removing the
departed socket from the connection registry (and hence from every room's
member set). -/
def disconnectServer (conns : List Connection) (c : Connection) (now : Nat) :
    List Connection × List Emission :=
  (conns.filter (fun x => x.sid ≠ c.sid), disconnectEmissions c now)

/-- A stored user record, as read by the auth middleware. -/
structure UserRec where
  id : String
  alias' : String
  avatarIndex : Nat
  deriving DecidableEq, Repr

/-- Result of the connection-time authentication middleware: the identity
attached to the socket, or rejection of the connection attempt. -/
inductive AuthResult where
  | ok (userId : String) (userAlias : Option String)
      (userAvatarIndex : Option Nat) (isAnonymous : Bool)
  | authError
  deriving DecidableEq, Repr

/-- The `io.use` authentication middleware. `if (!token)` — no token, where
JS falsiness also treats the empty string as absent — fabricate the anonymous
identity `anonymous_<socket.id>` and accept. Token present: `jwt.verify`
(modelled by `verify`, `none` = throws) then `User.findOne({id})` (modelled
by `findUser`); any failure rejects with an authentication error. -/
def authenticate (socketId : String) (token : Option String)
    (verify : String → Option String) (findUser : String → Option UserRec) :
    AuthResult :=
  match jsPresent token with
  | none => .ok ("anonymous_" ++ socketId) none none true
  | some t =>
    match verify t with
    | none => .authError
    | some uid =>
      match findUser uid with
      | none => .authError
      | some u => .ok u.id (some u.alias') (some u.avatarIndex) false

/-! Helper lemmas. -/

theorem mem_joinRoom_self (rooms : List String) (r : String) : r ∈ joinRoom rooms r := by
  by_cases h : r ∈ rooms <;> simp [joinRoom, h]

theorem mem_joinRoom_of_mem (rooms : List String) (r x : String) (hx : x ∈ rooms) :
    x ∈ joinRoom rooms r := by
  by_cases h : r ∈ rooms <;> simp [joinRoom, h, hx]

/-- An event-shape discriminator used to state that no authorization-failure
event occurs among some emissions. -/
def isHostAuthFailed : Event → Bool
  | .sanctuaryHostAuthFailed _ _ _ => true
  | _ => false

/-! Claim C10. -/

/-- C10: the `sanctuary_message_read` handler's observable behaviour is
independent of the `hostToken` field: any two requests from the same
connection differing only in `hostToken` produce the same single
`sanctuary_message_status` (status `read`) broadcast to the sanctuary room
excluding the sender — no host verification occurs. -/
theorem sanctuary_message_read_ignores_host_token (c : Connection) (now : Nat)
    (sanctuaryId messageId : String) (ht1 ht2 : Option String) :
    sanctuaryMessageRead c now sanctuaryId messageId ht1 =
      sanctuaryMessageRead c now sanctuaryId messageId ht2
    ∧ sanctuaryMessageRead c now sanctuaryId messageId ht1 =
      [⟨.toRoom ("sanctuary_" ++ sanctuaryId) (some c.sid),
         .sanctuaryMessageStatus messageId "read" now⟩] :=
  ⟨rfl, rfl⟩

/-! Claim C9. -/

/-- C9: connection-time authentication fails iff a credential is presented
(a token the source's `if (!token)` falsiness check treats as present, i.e.
non-empty) and is invalid (unverifiable token, or no matching user); with no
credential presented — `undefined` or the falsy empty string — it never
fails and fabricates the anonymous identity `anonymous_<socket.id>`, which
is distinct for distinct socket ids; a valid credential resolves to the
authenticated identity (userId, alias, avatarIndex). -/
theorem authenticate_spec (sid : String) (tok : Option String)
    (verify : String → Option String) (findUser : String → Option UserRec) :
    (authenticate sid tok verify findUser = .authError ↔
      ∃ t, tok = some t ∧ t ≠ "" ∧
        (verify t = none ∨ ∃ uid, verify t = some uid ∧ findUser uid = none))
    ∧ (∀ tk, jsPresent tk = none →
        authenticate sid tk verify findUser = .ok ("anonymous_" ++ sid) none none true)
    ∧ (∀ sid2, sid ≠ sid2 → ("anonymous_" ++ sid : String) ≠ "anonymous_" ++ sid2)
    ∧ (∀ t uid u, tok = some t → t ≠ "" → verify t = some uid → findUser uid = some u →
        authenticate sid tok verify findUser =
          .ok u.id (some u.alias') (some u.avatarIndex) false) := by
  refine ⟨?_, ?_, ?_, ?_⟩
  · constructor
    · intro h
      match tok, h with
      | none, h => simp [authenticate, jsPresent] at h
      | some t, h =>
        by_cases ht : t = ""
        · subst ht; simp [authenticate, jsPresent] at h
        · refine ⟨t, rfl, ht, ?_⟩
          match hv : verify t with
          | none => exact Or.inl rfl
          | some uid =>
            refine Or.inr ⟨uid, rfl, ?_⟩
            match hu : findUser uid with
            | none => rfl
            | some u => simp [authenticate, jsPresent, ht, hv, hu] at h
    · rintro ⟨t, rfl, ht, h⟩
      rcases h with hv | ⟨uid, hv, hu⟩
      · simp [authenticate, jsPresent, ht, hv]
      · simp [authenticate, jsPresent, ht, hv, hu]
  · intro tk htk
    simp [authenticate, htk]
  · intro sid2 hne heq
    apply hne
    have hd := congrArg String.data heq
    simp only [String.data_append] at hd
    exact String.ext (List.append_cancel_left hd)
  · intro t uid u ht hne hv hu
    subst ht
    simp [authenticate, jsPresent, hne, hv, hu]

/-- Concrete token verifier used by the witness below. -/
def demoVerify : String → Option String :=
  fun t => if t = "tok" then some "u1" else none

/-- Concrete user lookup used by the witness below. -/
def demoFindUser : String → Option UserRec :=
  fun uid => if uid = "u1" then some ⟨"u1", "Al", 2⟩ else none

/-- Witness for C9 at concrete inputs: a valid credential resolves to the
authenticated identity, and the falsy empty-string token takes the
never-failing anonymous path. -/
theorem authenticate_spec_witness :
    authenticate "s1" (some "tok") demoVerify demoFindUser =
      .ok "u1" (some "Al") (some 2) false
    ∧ authenticate "s1" (some "") demoVerify demoFindUser =
      .ok ("anonymous_" ++ "s1") none none true :=
  ⟨(authenticate_spec "s1" (some "tok") demoVerify demoFindUser).2.2.2
      "tok" "u1" ⟨"u1", "Al", 2⟩ rfl (by decide) (by decide) (by decide),
   (authenticate_spec "s1" (some "") demoVerify demoFindUser).2.1
      (some "") (by decide)⟩

/-! Claim C6. -/

/-- C6: a `sanctuary_message` sent to a sanctuary whose expiry has passed (or
which is inactive or absent) yields a single `sanctuary_error` event to the
sender carrying the session-expired/not-found reason, no broadcast to the
sanctuary or host rooms, and an unchanged store (in particular, the
sanctuary's submission sequence is unchanged). -/
theorem sanctuary_message_expired_rejected (st : Store) (c : Connection)
    (now : Nat) (msgId : String) (saveOk : Bool)
    (sanctuaryId content msgType : String) (pAlias : Option String)
    (h : ∀ s ∈ st.sanctuaries, s.id = sanctuaryId →
          s.isActive = false ∨ s.expiresAt ≤ now) :
    sanctuaryMessage st c now msgId saveOk sanctuaryId content msgType pAlias =
      (st, [⟨.toConn c.sid, .sanctuaryError "Sanctuary session not found or expired"⟩]) := by
  have hf : st.sanctuaries.find? (sanctuaryQuery sanctuaryId now) = none := by
    rw [List.find?_eq_none]
    intro s hs
    simp only [sanctuaryQuery, Bool.and_eq_true, beq_iff_eq, decide_eq_true_eq]
    rintro ⟨⟨hid, hact⟩, hlt⟩
    rcases h s hs hid with hina | hexp
    · rw [hact] at hina; exact absurd hina (by decide)
    · omega
  simp [sanctuaryMessage, hf]

/-- Witness for C6: an expired sanctuary (`expiresAt = 3 ≤ now = 10`). -/
theorem sanctuary_message_expired_rejected_witness :
    sanctuaryMessage
      ⟨[], [⟨"sid-1", "u", "topic", "d", "e", 3, true, 0, []⟩]⟩
      ⟨"sockA", "anonymous_sockA", none, none, true, [], none, none, none, none, none⟩
      10 "m1" true "sid-1" "hello" "text" none =
      (⟨[], [⟨"sid-1", "u", "topic", "d", "e", 3, true, 0, []⟩]⟩,
       [⟨.toConn "sockA", .sanctuaryError "Sanctuary session not found or expired"⟩]) :=
  sanctuary_message_expired_rejected _ _ 10 "m1" true "sid-1" "hello" "text" none
    (by decide)

/-! Claim C3. -/

/-- C3: for a `sanctuary_message` whose target sanctuary resolves (active,
non-expired), the broadcasts happen only after a successful durable append.
If the append fails, the store is unchanged and the author receives exactly
one `sanctuary_error` (no room broadcast); if it succeeds, the stored
submission sequence is extended by the message and exactly the public-room
broadcast and the host-channel notification (with the updated count) are
emitted. -/
theorem sanctuary_message_persist_before_broadcast (st : Store) (c : Connection)
    (now : Nat) (msgId : String) (sanctuaryId content msgType : String)
    (pAlias : Option String) (s : SanctuarySession)
    (h : st.sanctuaries.find? (sanctuaryQuery sanctuaryId now) = some s) :
    (sanctuaryMessage st c now msgId false sanctuaryId content msgType pAlias =
      (st, [⟨.toConn c.sid, .sanctuaryError "Failed to send message"⟩]))
    ∧ (let m : Submission :=
        ⟨msgId, c.userId, strOr pAlias (strOr c.userAlias "Anonymous"),
         content, msgType, now⟩
       sanctuaryMessage st c now msgId true sanctuaryId content msgType pAlias =
        ({ st with sanctuaries := st.sanctuaries.map (fun x =>
             if x.id == s.id then { s with submissions := s.submissions ++ [m] } else x) },
         [⟨.toRoom ("sanctuary_" ++ sanctuaryId) none, .sanctuaryNewMessage m⟩,
          ⟨.toRoom ("sanctuary_host_" ++ sanctuaryId) none,
            .sanctuaryNewSubmission m (s.submissions.length + 1)⟩])) := by
  constructor
  · simp [sanctuaryMessage, h]
  · simp [sanctuaryMessage, h]

/-- Witness for C3 at a concrete state (both the failing and the succeeding
append). -/
theorem sanctuary_message_persist_before_broadcast_witness :
    (sanctuaryMessage
        ⟨[], [⟨"s1", "u", "t", "d", "e", 20, true, 0, []⟩]⟩
        ⟨"sockA", "anonymous_sockA", none, none, true, [], none, none, none, none, none⟩
        10 "m1" false "s1" "hi" "text" none =
      (⟨[], [⟨"s1", "u", "t", "d", "e", 20, true, 0, []⟩]⟩,
       [⟨.toConn "sockA", .sanctuaryError "Failed to send message"⟩]))
    ∧ (let m : Submission := ⟨"m1", "anonymous_sockA", "Anonymous", "hi", "text", 10⟩
       sanctuaryMessage
        ⟨[], [⟨"s1", "u", "t", "d", "e", 20, true, 0, []⟩]⟩
        ⟨"sockA", "anonymous_sockA", none, none, true, [], none, none, none, none, none⟩
        10 "m1" true "s1" "hi" "text" none =
        (⟨[], [⟨"s1", "u", "t", "d", "e", 20, true, 0, [m]⟩]⟩,
         [⟨.toRoom "sanctuary_s1" none, .sanctuaryNewMessage m⟩,
          ⟨.toRoom "sanctuary_host_s1" none, .sanctuaryNewSubmission m 1⟩])) := by
  have h := sanctuary_message_persist_before_broadcast
    ⟨[], [⟨"s1", "u", "t", "d", "e", 20, true, 0, []⟩]⟩
    ⟨"sockA", "anonymous_sockA", none, none, true, [], none, none, none, none, none⟩
    10 "m1" "s1" "hi" "text" none ⟨"s1", "u", "t", "d", "e", 20, true, 0, []⟩ (by decide)
  exact ⟨h.1, by simpa using h.2⟩

/-! Claim C2. -/

/-- C2: for a sanctuary that is active and non-expired with an active,
non-expired `HostSession` of token `tok` (both resolved by the source's
queries, durable writes succeeding), `join_sanctuary_host` succeeds: the
caller joins the host channel, the current host room and token are recorded
on the socket, and the caller receives one `sanctuary_host_joined` snapshot
whose submission count is the length of the submission sequence, whose last
activity is the most recent submission's timestamp (or the sanctuary's
creation time when there are none), and which carries the issued token and
the sanctuary's topic, description, emoji and expiry. -/
theorem join_sanctuary_host_token_success (st : Store) (c : Connection)
    (now : Nat) (freshToken sanctuaryId tok : String)
    (hs : HostSession) (s : SanctuarySession)
    (htok : tok ≠ "")
    (hh : st.hostSessions.find? (hostSessionQuery tok sanctuaryId now) = some hs)
    (hsanct : st.sanctuaries.find? (sanctuaryQuery sanctuaryId now) = some s) :
    let r := joinSanctuaryHost st c now freshToken true sanctuaryId (some tok)
    r.2.2 = [⟨.toConn c.sid,
        .sanctuaryHostJoined sanctuaryId s.submissions.length
          (match s.submissions.getLast? with
           | some m => m.timestamp
           | none => s.createdAt)
          tok s.topic s.description s.emoji s.expiresAt⟩]
    ∧ ("sanctuary_host_" ++ sanctuaryId) ∈ r.2.1.rooms
    ∧ r.2.1.currentSanctuaryHost = some sanctuaryId
    ∧ r.2.1.connHostToken = some tok := by
  have hq := List.find?_some hh
  simp only [hostSessionQuery, Bool.and_eq_true, beq_iff_eq, decide_eq_true_eq] at hq
  have heq : hs.hostToken = tok := hq.1.1.1
  simp only [joinSanctuaryHost, jsPresent, if_neg htok, hh, hsanct,
    hostJoinSuccess, hostJoinedEvent, heq]
  refine ⟨rfl, mem_joinRoom_self _ _, rfl, rfl⟩

/-- Witness for C2 at a concrete state: one active host session with token
`t`, a sanctuary with two submissions. -/
theorem join_sanctuary_host_token_success_witness :
    let st : Store :=
      ⟨[⟨"s1", "t", "u", 20, true, 0⟩],
       [⟨"s1", "u", "topic", "d", "e", 20, true, 3,
         [⟨"m1", "p1", "A", "x", "text", 4⟩, ⟨"m2", "p2", "B", "y", "text", 7⟩]⟩]⟩
    let c : Connection :=
      ⟨"sockA", "anonymous_sockA", none, none, true, [], none, none, none, none, none⟩
    let r := joinSanctuaryHost st c 10 "fresh" true "s1" (some "t")
    r.2.2 = [⟨.toConn "sockA",
        .sanctuaryHostJoined "s1" 2 7 "t" "topic" "d" "e" 20⟩]
    ∧ ("sanctuary_host_" ++ "s1") ∈ r.2.1.rooms
    ∧ r.2.1.currentSanctuaryHost = some "s1"
    ∧ r.2.1.connHostToken = some "t" := by
  have h := join_sanctuary_host_token_success
    ⟨[⟨"s1", "t", "u", 20, true, 0⟩],
     [⟨"s1", "u", "topic", "d", "e", 20, true, 3,
       [⟨"m1", "p1", "A", "x", "text", 4⟩, ⟨"m2", "p2", "B", "y", "text", 7⟩]⟩]⟩
    ⟨"sockA", "anonymous_sockA", none, none, true, [], none, none, none, none, none⟩
    10 "fresh" "s1" "t" ⟨"s1", "t", "u", 20, true, 0⟩
    ⟨"s1", "u", "topic", "d", "e", 20, true, 3,
     [⟨"m1", "p1", "A", "x", "text", 4⟩, ⟨"m2", "p2", "B", "y", "text", 7⟩]⟩
    (by decide) (by decide) (by decide)
  simpa using h

/-! Claim C7. -/

/-- C7: an authenticated caller whose identity matches the recorded owner of
an active, non-expired sanctuary, presenting no token, succeeds: a new
`HostSession` is minted and persisted, bound to that owner, with the freshly
generated token and the sanctuary's expiry; the caller joins the host channel
and receives `sanctuary_host_joined` carrying that token, with submission
count 0 (and last activity the creation time) when the sanctuary has no
submissions. -/
theorem join_sanctuary_host_owner_mint (st : Store) (c : Connection)
    (now : Nat) (freshToken sanctuaryId : String) (s : SanctuarySession)
    (hanon : c.isAnonymous = false)
    (hfind : st.sanctuaries.find? (sanctuaryOwnerQuery sanctuaryId c.userId now) = some s)
    (hsub : s.submissions = []) :
    let hs : HostSession := ⟨sanctuaryId, freshToken, c.userId, s.expiresAt, true, now⟩
    let r := joinSanctuaryHost st c now freshToken true sanctuaryId none
    r.1.hostSessions = updateHostAccess (st.hostSessions ++ [hs]) sanctuaryId freshToken now
    ∧ hs ∈ r.1.hostSessions
    ∧ r.2.2 = [⟨.toConn c.sid,
        .sanctuaryHostJoined sanctuaryId 0 s.createdAt freshToken
          s.topic s.description s.emoji s.expiresAt⟩]
    ∧ ("sanctuary_host_" ++ sanctuaryId) ∈ r.2.1.rooms
    ∧ r.2.1.currentSanctuaryHost = some sanctuaryId
    ∧ r.2.1.connHostToken = some freshToken := by
  simp only [joinSanctuaryHost, jsPresent, hanon, Bool.not_false, if_true,
    hfind, hostJoinSuccess, hostJoinedEvent, strOr, hsub]
  refine ⟨by trivial, ?_, by trivial, mem_joinRoom_self _ _, by trivial, by trivial⟩
  simp only [updateHostAccess, List.map_append, List.map_cons, List.map_nil]
  apply List.mem_append_right
  simp

/-- Witness for C7: authenticated owner `u` of fresh sanctuary `sid-2`,
no token presented. -/
theorem join_sanctuary_host_owner_mint_witness :
    let hs : HostSession := ⟨"sid-2", "fresh32", "u", 20, true, 10⟩
    let r := joinSanctuaryHost
      ⟨[], [⟨"sid-2", "u", "topic", "d", "e", 20, true, 3, []⟩]⟩
      ⟨"sockA", "u", some "Al", some 1, false, [], none, none, none, none, none⟩
      10 "fresh32" true "sid-2" none
    r.1.hostSessions = updateHostAccess ([] ++ [hs]) "sid-2" "fresh32" 10
    ∧ hs ∈ r.1.hostSessions
    ∧ r.2.2 = [⟨.toConn "sockA",
        .sanctuaryHostJoined "sid-2" 0 3 "fresh32" "topic" "d" "e" 20⟩]
    ∧ ("sanctuary_host_" ++ "sid-2") ∈ r.2.1.rooms
    ∧ r.2.1.currentSanctuaryHost = some "sid-2"
    ∧ r.2.1.connHostToken = some "fresh32" := by
  have h := join_sanctuary_host_owner_mint
    ⟨[], [⟨"sid-2", "u", "topic", "d", "e", 20, true, 3, []⟩]⟩
    ⟨"sockA", "u", some "Al", some 1, false, [], none, none, none, none, none⟩
    10 "fresh32" "sid-2" ⟨"sid-2", "u", "topic", "d", "e", 20, true, 3, []⟩
    rfl (by decide) rfl
  simpa using h

/-! Claim C1. -/

/-- Counterexample to C1 as stated: at `now = 10` the only `HostSession` for
sanctuary `s1` with token `t` is expired (`expiresAt = 5 ≤ 10`), yet a
`join_sanctuary_host` presenting that token from the authenticated owner of
the still-active sanctuary does NOT fail — the owner-mint branch reuses the
presented token and emits `sanctuary_host_joined`, not
`sanctuary_host_auth_failed`. -/
theorem join_sanctuary_host_expired_token_counterexample :
    let st : Store :=
      ⟨[⟨"s1", "t", "u", 5, true, 0⟩],
       [⟨"s1", "u", "topic", "d", "e", 20, true, 0, []⟩]⟩
    let c : Connection :=
      ⟨"sockA", "u", some "Al", some 1, false, [], none, none, none, none, none⟩
    (st.hostSessions.all (fun h => decide (h.expiresAt ≤ 10)))
    ∧ (joinSanctuaryHost st c 10 "fresh" true "s1" (some "t")).2.2 =
        [⟨.toConn "sockA", .sanctuaryHostJoined "s1" 0 0 "t" "topic" "d" "e" 20⟩]
    ∧ ((joinSanctuaryHost st c 10 "fresh" true "s1" (some "t")).2.2.all
        (fun e => !isHostAuthFailed e.event)) := by
  refine ⟨by decide, by decide, by decide⟩

/-- C1 as amended: presenting a token for which every stored matching active
`HostSession` is expired fails with `sanctuary_host_auth_failed` (and leaves
the store and connection unchanged) PROVIDED the caller is anonymous or is
not resolved as the owner of an active, non-expired sanctuary; an
authenticated owner of a still-active sanctuary instead gets a fresh session
minted and the join succeeds. -/
theorem join_sanctuary_host_expired_token_fails (st : Store) (c : Connection)
    (now : Nat) (freshToken : String) (saveOk : Bool) (sanctuaryId tok : String)
    (hexp : ∀ h ∈ st.hostSessions, h.hostToken = tok → h.sanctuaryId = sanctuaryId →
      h.isActive = true → h.expiresAt ≤ now)
    (hnoowner : c.isAnonymous = true ∨
      st.sanctuaries.find? (sanctuaryOwnerQuery sanctuaryId c.userId now) = none) :
    joinSanctuaryHost st c now freshToken saveOk sanctuaryId (some tok) =
      (st, c, [hostAuthFailedEmission c sanctuaryId "Host authorization failed"]) := by
  have hf : st.hostSessions.find? (hostSessionQuery tok sanctuaryId now) = none := by
    rw [List.find?_eq_none]
    intro h hh
    simp only [hostSessionQuery, Bool.and_eq_true, beq_iff_eq, decide_eq_true_eq]
    rintro ⟨⟨⟨htok, hsid⟩, hact⟩, hlt⟩
    exact absurd hlt (by have := hexp h hh htok hsid hact; omega)
  by_cases htr : tok = ""
  · subst htr
    rcases hnoowner with hanon | hown
    · simp [joinSanctuaryHost, jsPresent, hanon]
    · by_cases hanon : c.isAnonymous
      · simp [joinSanctuaryHost, jsPresent, hanon]
      · simp [joinSanctuaryHost, jsPresent, hanon, hown]
  · rcases hnoowner with hanon | hown
    · simp [joinSanctuaryHost, jsPresent, htr, hf, hanon]
    · by_cases hanon : c.isAnonymous
      · simp [joinSanctuaryHost, jsPresent, htr, hf, hanon]
      · simp [joinSanctuaryHost, jsPresent, htr, hf, hanon, hown]

/-- Witness for the amended C1: anonymous caller presenting the expired
token fails with the authorization-failure event. -/
theorem join_sanctuary_host_expired_token_fails_witness :
    joinSanctuaryHost
      ⟨[⟨"s1", "t", "u", 5, true, 0⟩],
       [⟨"s1", "u", "topic", "d", "e", 20, true, 0, []⟩]⟩
      ⟨"sockB", "anonymous_sockB", none, none, true, [], none, none, none, none, none⟩
      10 "fresh" true "s1" (some "t") =
      (⟨[⟨"s1", "t", "u", 5, true, 0⟩],
        [⟨"s1", "u", "topic", "d", "e", 20, true, 0, []⟩]⟩,
       ⟨"sockB", "anonymous_sockB", none, none, true, [], none, none, none, none, none⟩,
       [hostAuthFailedEmission
          ⟨"sockB", "anonymous_sockB", none, none, true, [], none, none, none, none, none⟩
          "s1" "Host authorization failed"]) :=
  join_sanctuary_host_expired_token_fails _ _ 10 "fresh" true "s1" "t"
    (by decide) (Or.inl rfl)

/-! Claim C4. -/

/-- Counterexample to C4 as stated: the target `X` is registered in NO room
(`rooms = []`), yet `kick_participant` is not a no-op — the source resolves
the target by scanning live connections, not room registrations, so the
connected-but-roomless target receives a directed `kicked_from_room` and a
room-wide `participant_kicked` is broadcast. -/
theorem kick_participant_roomless_target_counterexample :
    let actor : Connection :=
      ⟨"a", "act", none, none, true, ["audio_room_r1"], none, none, none, some "r1", none⟩
    let target : Connection :=
      ⟨"b", "X", none, none, true, [], none, none, none, none, none⟩
    target.rooms = []
    ∧ (kickParticipant [actor, target] actor 7 "r1" "X").2 =
        [⟨.toConn "b", .kickedFromRoom "r1" "act" 7⟩,
         ⟨.toRoom "audio_room_r1" (some "a"), .participantKicked "X" "act" 7⟩]
    ∧ deliveredTo (kickParticipant [actor, target] actor 7 "r1" "X").1 (.toConn "b") = ["b"] := by
  refine ⟨by decide, by decide, by decide⟩

/-- C4 as amended: a `kick_participant` whose target id matches no LIVE
CONNECTION is a no-op — no event is emitted to anyone, the connection
registry is unchanged, and no error is surfaced to the actor. -/
theorem kick_participant_unmatched_noop (conns : List Connection)
    (actor : Connection) (now : Nat) (sessionId participantId : String)
    (h : ∀ s ∈ conns, s.userId ≠ participantId) :
    kickParticipant conns actor now sessionId participantId = (conns, []) := by
  have hf : conns.find? (fun s => s.userId == participantId) = none := by
    rw [List.find?_eq_none]
    intro x hx
    simpa using h x hx
  simp [kickParticipant, hf]

/-- Witness for the amended C4: no live connection has userId `ghost`. -/
theorem kick_participant_unmatched_noop_witness :
    kickParticipant
      [⟨"a", "act", none, none, true, ["audio_room_r1"], none, none, none, some "r1", none⟩]
      ⟨"a", "act", none, none, true, ["audio_room_r1"], none, none, none, some "r1", none⟩
      7 "r1" "ghost" =
      ([⟨"a", "act", none, none, true, ["audio_room_r1"], none, none, none, some "r1", none⟩],
       []) :=
  kick_participant_unmatched_noop _ _ 7 "r1" "ghost" (by decide)

/-! Claim C5. -/

/-- Counterexample to C5 as stated: a connection joins chat room `A`, then
chat room `B`. The tracked current chat session becomes `B`, but `socket.join`
never leaves `chat_A`: the connection is still a member of `chat_A`, and a
`send_message` broadcast to session `A` (by another connection) is still
delivered to it — contradicting "broadcasts to A are no longer delivered". -/
theorem join_chat_old_room_still_delivered_counterexample :
    let c0 : Connection := ⟨"c", "u1", none, none, true, [], none, none, none, none, none⟩
    let cB := (joinChat (joinChat c0 1 "A" "user").1 2 "B" "user").1
    let d : Connection :=
      ⟨"d", "u2", none, none, true, ["chat_A"], some "A", none, none, none, none⟩
    cB.currentChatSession = some "B"
    ∧ "chat_A" ∈ cB.rooms
    ∧ sendMessage d 3 "m1" "A" "hi" "text" =
        [⟨.toRoom "chat_A" none, .newMessage "m1" "u2" "Anonymous" "hi" "text" 3 "A"⟩]
    ∧ deliveredTo [cB, d] (.toRoom "chat_A" none) = ["c", "d"] := by
  refine ⟨by decide, by decide, by decide, by decide⟩

/-- C5 as amended: for every connection and every room kind — chat, public
sanctuary, sanctuary-host channel, audio room — joining a room of that kind
replaces the TRACKED current room of that kind (the `current*` field used by
the disconnect handler), but does not remove the connection's membership in
the previously joined room of the same kind — the connection stays in both
rooms and keeps receiving the old room's broadcasts. For the host channel,
joining is the success path of `join_sanctuary_host` (hypotheses mirror its
token-branch queries), starting from a connection already in host room `a`. -/
theorem join_replaces_tracking_not_membership (c : Connection) (n1 n2 : Nat)
    (a b ut : String) (pAlias : Option String)
    (st : Store) (freshToken tokB : String) (hsB : HostSession)
    (sB : SanctuarySession)
    (htokB : tokB ≠ "")
    (hh : st.hostSessions.find? (hostSessionQuery tokB b n2) = some hsB)
    (hsanct : st.sanctuaries.find? (sanctuaryQuery b n2) = some sB) :
    ((joinChat (joinChat c n1 a ut).1 n2 b ut).1.currentChatSession = some b
      ∧ ("chat_" ++ a) ∈ (joinChat (joinChat c n1 a ut).1 n2 b ut).1.rooms)
    ∧ ((joinSanctuary (joinSanctuary c n1 a pAlias false).1 n2 b pAlias false).1.currentSanctuary
          = some b
      ∧ ("sanctuary_" ++ a) ∈
          (joinSanctuary (joinSanctuary c n1 a pAlias false).1 n2 b pAlias false).1.rooms)
    ∧ ((joinAudioRoom (joinAudioRoom c n1 a pAlias false false).1 n2 b pAlias false false).1.currentAudioRoom
          = some b
      ∧ ("audio_room_" ++ a) ∈
          (joinAudioRoom (joinAudioRoom c n1 a pAlias false false).1 n2 b pAlias false false).1.rooms)
    ∧ (let cA : Connection :=
         { c with rooms := joinRoom c.rooms ("sanctuary_host_" ++ a),
                  currentSanctuaryHost := some a }
       let cB := (joinSanctuaryHost st cA n2 freshToken true b (some tokB)).2.1
       cB.currentSanctuaryHost = some b ∧ ("sanctuary_host_" ++ a) ∈ cB.rooms) := by
  refine ⟨⟨rfl, ?_⟩, ⟨rfl, ?_⟩, ⟨rfl, ?_⟩, ?_⟩
  · exact mem_joinRoom_of_mem _ _ _ (mem_joinRoom_self _ _)
  · exact mem_joinRoom_of_mem _ _ _ (mem_joinRoom_self _ _)
  · exact mem_joinRoom_of_mem _ _ _ (mem_joinRoom_self _ _)
  · simp only [joinSanctuaryHost, jsPresent, if_neg htokB, hh, hsanct, hostJoinSuccess]
    exact ⟨rfl, mem_joinRoom_of_mem _ _ _ (mem_joinRoom_self _ _)⟩

/-- Witness for the amended C5 at concrete inputs, exercising all four room
kinds including the host-channel re-join. -/
theorem join_replaces_tracking_not_membership_witness :
    let c0 : Connection := ⟨"c", "u1", none, none, true, [], none, none, none, none, none⟩
    ((joinChat (joinChat c0 1 "A" "user").1 2 "B" "user").1.currentChatSession = some "B"
      ∧ ("chat_" ++ "A") ∈ (joinChat (joinChat c0 1 "A" "user").1 2 "B" "user").1.rooms)
    ∧ ((joinSanctuary (joinSanctuary c0 1 "A" none false).1 2 "B" none false).1.currentSanctuary
          = some "B"
      ∧ ("sanctuary_" ++ "A") ∈
          (joinSanctuary (joinSanctuary c0 1 "A" none false).1 2 "B" none false).1.rooms)
    ∧ ((joinAudioRoom (joinAudioRoom c0 1 "A" none false false).1 2 "B" none false false).1.currentAudioRoom
          = some "B"
      ∧ ("audio_room_" ++ "A") ∈
          (joinAudioRoom (joinAudioRoom c0 1 "A" none false false).1 2 "B" none false false).1.rooms)
    ∧ (let cA : Connection :=
         { c0 with rooms := joinRoom c0.rooms ("sanctuary_host_" ++ "A"),
                   currentSanctuaryHost := some "A" }
       let cB := (joinSanctuaryHost
           ⟨[⟨"B", "tb", "u", 20, true, 0⟩],
            [⟨"B", "u", "topic", "d", "e", 20, true, 0, []⟩]⟩
           cA 2 "fresh" true "B" (some "tb")).2.1
       cB.currentSanctuaryHost = some "B" ∧ ("sanctuary_host_" ++ "A") ∈ cB.rooms) :=
  join_replaces_tracking_not_membership
    ⟨"c", "u1", none, none, true, [], none, none, none, none, none⟩
    1 2 "A" "B" "user" none
    ⟨[⟨"B", "tb", "u", 20, true, 0⟩], [⟨"B", "u", "topic", "d", "e", 20, true, 0, []⟩]⟩
    "fresh" "tb" ⟨"B", "tb", "u", 20, true, 0⟩
    ⟨"B", "u", "topic", "d", "e", 20, true, 0, []⟩
    (by decide) (by decide) (by decide)

/-! Claim C8. -/

/-- Counterexample to C8's general clause ("for each room kind the connection
occupies at disconnect time, a left notification is emitted to that room"):
a connection occupying only a sanctuary-host room produces NO emission at
all on disconnect — the source merely logs for the host room kind. -/
theorem disconnect_host_room_no_notification_counterexample :
    let c : Connection :=
      ⟨"h", "u", none, none, false, ["sanctuary_host_s1"], none, none, some "s1", none, some "t"⟩
    c.currentSanctuaryHost = some "s1" ∧ disconnectEmissions c 9 = [] := by
  exact ⟨rfl, rfl⟩

/-- C8 as amended: a connection disconnecting while in a chat room and an
audio room emits exactly one `user_left` to the chat room and exactly one
`audio_participant_left` to the audio room, each excluding the departing
socket, whatever else the connection occupies: an occupied public sanctuary
additionally gets exactly one `participant_left` (and an unoccupied one gets
none), while an occupied sanctuary-host room gets no notification; the
departed socket is removed from the registry, hence from every room's
member set. -/
theorem disconnect_chat_audio_left_notifications (conns : List Connection)
    (c : Connection) (now : Nat) (a b : String)
    (h1 : c.currentChatSession = some a)
    (h3 : c.currentAudioRoom = some b) :
    (disconnectServer conns c now).2 =
      [⟨.toRoom ("chat_" ++ a) (some c.sid), .userLeft c.userId c.userAlias now⟩]
      ++ (match c.currentSanctuary with
          | some sid => [⟨.toRoom ("sanctuary_" ++ sid) (some c.sid),
              .participantLeft c.userId c.userAlias now⟩]
          | none => [])
      ++ [⟨.toRoom ("audio_room_" ++ b) (some c.sid),
           .audioParticipantLeft c.userId c.userAlias now⟩]
    ∧ ∀ r, c.sid ∉ deliveredTo (disconnectServer conns c now).1 (.toRoom r none) := by
  constructor
  · cases hcs : c.currentSanctuary <;>
      simp [disconnectServer, disconnectEmissions, h1, hcs, h3]
  · intro r
    simp only [disconnectServer, deliveredTo, List.mem_map, List.mem_filter,
      decide_eq_true_eq]
    rintro ⟨x, ⟨⟨hxconns, hxne⟩, hxroom⟩, hxsid⟩
    exact hxne hxsid

/-- Witness for the amended C8: a connection simultaneously in chat `A`,
public sanctuary `S`, a sanctuary-host room and audio room `B`, disconnecting
in a two-connection registry: one `user_left`, one `participant_left`, one
`audio_participant_left`, nothing for the host room. -/
theorem disconnect_chat_audio_left_notifications_witness :
    let c : Connection :=
      ⟨"c", "u1", some "Al", none, false,
       ["chat_A", "sanctuary_S", "audio_room_B", "sanctuary_host_s1"],
       some "A", some "S", some "s1", some "B", some "t"⟩
    let d : Connection :=
      ⟨"d", "u2", none, none, true, ["chat_A", "audio_room_B"], some "A", none, none,
       some "B", none⟩
    (disconnectServer [c, d] c 9).2 =
      [⟨.toRoom "chat_A" (some "c"), .userLeft "u1" (some "Al") 9⟩,
       ⟨.toRoom "sanctuary_S" (some "c"), .participantLeft "u1" (some "Al") 9⟩,
       ⟨.toRoom "audio_room_B" (some "c"), .audioParticipantLeft "u1" (some "Al") 9⟩]
    ∧ ∀ r, "c" ∉ deliveredTo (disconnectServer [c, d] c 9).1 (.toRoom r none) := by
  have h := disconnect_chat_audio_left_notifications
    [⟨"c", "u1", some "Al", none, false,
      ["chat_A", "sanctuary_S", "audio_room_B", "sanctuary_host_s1"],
      some "A", some "S", some "s1", some "B", some "t"⟩,
     ⟨"d", "u2", none, none, true, ["chat_A", "audio_room_B"], some "A", none, none,
      some "B", none⟩]
    ⟨"c", "u1", some "Al", none, false,
     ["chat_A", "sanctuary_S", "audio_room_B", "sanctuary_host_s1"],
     some "A", some "S", some "s1", some "B", some "t"⟩
    9 "A" "B" rfl rfl
  simpa using h
